import Mathlib

/-!
# Crypto-Platform-MVP prediction engine: shallow embedding

This file embeds the prediction-engine subsystem of the Crypto-Platform-MVP
repository and proves the specification claims about it.

Sources embedded here:
* `src/1_Architecture.md`, `predict_30_steps` — the iterative multi-step
  forecast loop (Python pseudocode): per-step close prediction, OHLC
  derivation, time-decay confidence, direction labelling, and the
  feed-forward of the predicted candle into the feature state.
* `src/lib/chart/indicators.ts` — `calculateSMA`, `calculateRSI` over
  candle data.
* The functions `update_features`, `calculate_timestamp` and
  `buildFeatures` are referenced by the pseudocode / the specification but
  not defined anywhere in the repository; they are modelled from the
  specification text (each such definition is marked in its doc comment).

All prices, volumes and confidences are modelled as exact rationals (`ℚ`).
Fallible computations return `Except PredictionError _`, mirroring Python
exception propagation.
-/

/-- Error taxonomy of the prediction core (spec §7). -/
inductive PredictionError : Type where
  | insufficientHistory : PredictionError
  | schemaMismatch : PredictionError
  | emptyEnsemble : PredictionError
  | modelInferenceFailure : PredictionError
deriving DecidableEq, Repr

/-- Decidable equality for `Except`, so concrete runs can be checked by `decide`. -/
instance exceptDecEq {ε α : Type} [DecidableEq ε] [DecidableEq α] :
    DecidableEq (Except ε α) := fun x y =>
  match x, y with
  | .ok a, .ok b =>
    if h : a = b then .isTrue (by rw [h]) else .isFalse (by intro hc; cases hc; exact h rfl)
  | .ok _, .error _ => .isFalse (by intro hc; cases hc)
  | .error _, .ok _ => .isFalse (by intro hc; cases hc)
  | .error e, .error f =>
    if h : e = f then .isTrue (by rw [h]) else .isFalse (by intro hc; cases hc; exact h rfl)

/-- One OHLCV observation (spec §3 `Candle`). `openPrice` stands for the
source's `open` field, which is a reserved word in Lean. -/
structure Candle : Type where
  timestamp : ℚ
  openPrice : ℚ
  high : ℚ
  low : ℚ
  close : ℚ
  volume : ℚ
deriving DecidableEq, Repr

/-- The feature-dictionary slice that the `predict_30_steps` loop reads and
writes: current OHLCV, the trailing average true range `ATR_14`, and the
lagged close/volume features `close_lag_1..5` / `volume_lag_1..5` from the
feature list in `src/1_Architecture.md`. -/
structure Features : Type where
  fOpen : ℚ
  fHigh : ℚ
  fLow : ℚ
  fClose : ℚ
  fVolume : ℚ
  atr14 : ℚ
  closeLags : List ℚ
  volumeLags : List ℚ
deriving DecidableEq, Repr

/-- The dictionary `{close, open, high, low}` that `predict_30_steps` passes
to `update_features` for the predicted candle (it carries no volume). -/
structure PredCandle : Type where
  pOpen : ℚ
  pHigh : ℚ
  pLow : ℚ
  pClose : ℚ
deriving DecidableEq, Repr

/-- Direction label of a forecast step. -/
inductive Direction : Type where
  | up : Direction
  | down : Direction
  | flat : Direction
deriving DecidableEq, Repr

/-- One predicted future candle, as appended by `predict_30_steps`
(`{step, timestamp, open, high, low, close, confidence, direction}`). -/
structure ForecastStep : Type where
  step : ℕ
  timestamp : ℚ
  openPrice : ℚ
  highPrice : ℚ
  lowPrice : ℚ
  closePrice : ℚ
  confidence : ℚ
  direction : Direction
deriving DecidableEq, Repr

/-- Python's `round(x, 2)`: round to two decimal places (rational model). -/
def roundTo2 (q : ℚ) : ℚ := (round (q * 100) : ℚ) / 100

/-- Time-decay confidence of `predict_30_steps`, parameterised by the loop
bound: `confidence = max(0.60, 0.85 - (step - 1) * 0.25 / totalSteps)`.
The source hardcodes `totalSteps = 30` (the literal divisor is `30`). -/
def timeDecayConfidence (totalSteps step : ℕ) : ℚ :=
  max (3 / 5) (17 / 20 - ((step : ℚ) - 1) * (1 / 4) / (totalSteps : ℚ))

/-- Direction rule of `predict_30_steps`:
`'up' if next_close > current['close'] else 'down'`. -/
def stepDirection (nextClose prevClose : ℚ) : Direction :=
  if nextClose > prevClose then .up else .down

/-- The OHLC dictionary handed to `update_features`: open is the current
close, high/low are the predicted close ± half the current `ATR_14`. -/
def predCandleOf (current : Features) (nextClose : ℚ) : PredCandle :=
  { pOpen := current.fClose
    pHigh := nextClose + current.atr14 * (1 / 2)
    pLow := nextClose - current.atr14 * (1 / 2)
    pClose := nextClose }

/-- The forecast-step record appended by one iteration of `predict_30_steps`,
with `current` the feature state at that iteration and `nextClose` the
model's prediction. -/
def stepOf (calcTimestamp : ℕ → ℚ) (totalSteps step : ℕ)
    (current : Features) (nextClose : ℚ) : ForecastStep :=
  { step := step
    timestamp := calcTimestamp step
    openPrice := current.fClose
    highPrice := nextClose + current.atr14 * (1 / 2)
    lowPrice := nextClose - current.atr14 * (1 / 2)
    closePrice := nextClose
    confidence := roundTo2 (timeDecayConfidence totalSteps step)
    direction := stepDirection nextClose current.fClose }

/-- The step loop of `predict_30_steps`, iterating `for step in
range(1, totalSteps + 1)`. `model` is the loaded regressor's `predict`
(fallible, mirroring Python exception propagation), `updF` is the
`update_features` collaborator and `calcTimestamp` the `calculate_timestamp`
collaborator (both called but not defined in the source). The first `ℕ`
argument counts remaining iterations, the second is the 1-based step. -/
def predictLoop (model : Features → Except PredictionError ℚ)
    (updF : Features → PredCandle → Features)
    (calcTimestamp : ℕ → ℚ) (totalSteps : ℕ) :
    ℕ → ℕ → Features → Except PredictionError (List ForecastStep)
  | 0, _, _ => .ok []
  | remaining + 1, step, current =>
    match model current with
    | .error e => .error e
    | .ok nextClose =>
      match predictLoop model updF calcTimestamp totalSteps remaining (step + 1)
          (updF current (predCandleOf current nextClose)) with
      | .error e => .error e
      | .ok rest => .ok (stepOf calcTimestamp totalSteps step current nextClose :: rest)

/-- The forecast orchestrator (spec §4.5 `generateForecast`), the
`totalSteps`-parameterised form of `predict_30_steps`: run the step loop
from step 1 on the initial feature state. -/
def generateForecast (model : Features → Except PredictionError ℚ)
    (updF : Features → PredCandle → Features)
    (calcTimestamp : ℕ → ℚ) (totalSteps : ℕ) (initFeatures : Features) :
    Except PredictionError (List ForecastStep) :=
  predictLoop model updF calcTimestamp totalSteps totalSteps 1 initFeatures

/-- One state transition of the loop's feature state: on a successful
prediction the state is updated with the predicted candle, as in step 6 of
`predict_30_steps`; on a model error the loop aborts, so the state is
irrelevant and kept unchanged. -/
def advanceState (model : Features → Except PredictionError ℚ)
    (updF : Features → PredCandle → Features) (f : Features) : Features :=
  match model f with
  | .ok c => updF f (predCandleOf f c)
  | .error _ => f

/-- The feature state entering iteration `k` (0-based) of the loop. -/
def stateAt (model : Features → Except PredictionError ℚ)
    (updF : Features → PredCandle → Features) (init : Features) (k : ℕ) : Features :=
  (advanceState model updF)^[k] init

/-- Wilder smoothing step for a 14-period average true range. -/
def wilderNextATR (atr tr : ℚ) : ℚ := (atr * 13 + tr) / 14

/-- True range of a new bar against the previous close. -/
def trueRangeOf (hi lo prevClose : ℚ) : ℚ :=
  max (hi - lo) (max |hi - prevClose| |lo - prevClose|)

/-- Modelled from the spec: `update_features` is called by
`predict_30_steps` but never defined in the repository. Spec §4.5 (f):
"feed the predicted candle back into the feature state — update
lagged-close/lagged-volume features and recompute rolling indicators as if
the predicted candle were real". The predicted candle carries no volume, so
the current volume is carried forward. -/
def update_features (f : Features) (c : PredCandle) : Features :=
  { fOpen := c.pOpen
    fHigh := c.pHigh
    fLow := c.pLow
    fClose := c.pClose
    fVolume := f.fVolume
    atr14 := wilderNextATR f.atr14 (trueRangeOf c.pHigh c.pLow f.fClose)
    closeLags := f.fClose :: f.closeLags.dropLast
    volumeLags := f.fVolume :: f.volumeLags.dropLast }

/-- Indicator lookback windows of the feature battery listed in
`src/1_Architecture.md` (RSI 14, MACD slow 26, Bollinger 20, ATR 14,
lagged values 5, 30-step price change, volume SMA 20, EMA 50). -/
def lookbackWindows : List ℕ := [14, 26, 20, 14, 5, 30, 20, 50]

/-- The largest indicator lookback window `W` (spec §4.1). -/
def requiredLookback : ℕ := lookbackWindows.foldr max 0

/-- Modelled from the spec: `buildFeatures` (spec §4.1) is described in the
documentation but not implemented in the repository. It fails with
`InsufficientHistory` when fewer than `W = requiredLookback` candles precede
`asOfIndex`; otherwise it deterministically assembles the feature slice used
by the forecast loop from the trailing window. -/
def buildFeatures (candles : List Candle) (asOfIndex : ℕ) :
    Except PredictionError Features :=
  if asOfIndex < requiredLookback then .error .insufficientHistory
  else
    match candles[asOfIndex]? with
    | none => .error .insufficientHistory
    | some cur =>
      let preceding := (candles.take asOfIndex).reverse
      let trPairs := ((cur :: preceding).zip preceding).take 14
      let trs := trPairs.map (fun p => trueRangeOf p.1.high p.1.low p.2.close)
      .ok { fOpen := cur.openPrice
            fHigh := cur.high
            fLow := cur.low
            fClose := cur.close
            fVolume := cur.volume
            atr14 := trs.sum / 14
            closeLags := (preceding.take 5).map Candle.close
            volumeLags := (preceding.take 5).map Candle.volume }

/-- Modelled from the spec: the orchestrator entry point over raw candles
(spec §4.5, "Init: build FeatureVector from the tail of `candles`"), gluing
`buildFeatures` to the step loop; a feature-building failure yields the
error and no forecast steps. -/
def generateForecastFromCandles (model : Features → Except PredictionError ℚ)
    (updF : Features → PredCandle → Features) (calcTimestamp : ℕ → ℚ)
    (candles : List Candle) (asOfIndex totalSteps : ℕ) :
    Except PredictionError (List ForecastStep) :=
  match buildFeatures candles asOfIndex with
  | .error e => .error e
  | .ok init => generateForecast model updF calcTimestamp totalSteps init

/-- A chart candle as in `src/types/chart.ts` (`CandleData`): unix time plus
OHLCV. `openPrice` stands for the source's `open` field. -/
structure ChartCandle : Type where
  time : ℚ
  openPrice : ℚ
  high : ℚ
  low : ℚ
  close : ℚ
  volume : ℚ
deriving DecidableEq, Repr

/-- A point of an indicator line (`LineData` in `src/types/chart.ts`). -/
structure LineData : Type where
  time : ℚ
  value : ℚ
deriving DecidableEq, Repr

/-- `calculateSMA` from `src/lib/chart/indicators.ts`: arithmetic mean of
closes over a sliding window; returns `[]` when `data.length < period`. -/
def calculateSMA (data : List ChartCandle) (period : ℕ) : List LineData :=
  if data.length < period then []
  else
    ((List.range data.length).drop (period - 1)).map (fun i =>
      { time := (data.getD i ⟨0, 0, 0, 0, 0, 0⟩).time
        value := (((data.drop (i + 1 - period)).take period).map ChartCandle.close).sum
          / (period : ℚ) })

/-- `RSI = 100 - 100 / (1 + RS)` with `RS = avgGain / avgLoss`, and `RS`
taken to be `100` when `avgLoss` is zero, as in
`src/lib/chart/indicators.ts` (`calculateRSI`). -/
def rsiValue (avgGain avgLoss : ℚ) : ℚ :=
  let rs := if avgLoss = 0 then 100 else avgGain / avgLoss
  100 - 100 / (1 + rs)

/-- The Wilder-smoothing loop of `calculateRSI`: fold over the remaining
`(gain, loss, time)` triples, updating the smoothed averages and emitting
one RSI point per triple. -/
def rsiLoop (period : ℕ) : ℚ → ℚ → List (ℚ × ℚ × ℚ) → List LineData
  | _, _, [] => []
  | avgGain, avgLoss, (g, lo, t) :: rest =>
    let avgGain2 := (avgGain * ((period : ℚ) - 1) + g) / (period : ℚ)
    let avgLoss2 := (avgLoss * ((period : ℚ) - 1) + lo) / (period : ℚ)
    { time := t, value := rsiValue avgGain2 avgLoss2 } :: rsiLoop period avgGain2 avgLoss2 rest

/-- `calculateRSI` from `src/lib/chart/indicators.ts`: price changes are
split into gains and losses, the first point uses simple averages over the
first `period` changes, and subsequent points use Wilder's smoothing.
Returns `[]` when `data.length < period + 1`. -/
def calculateRSI (data : List ChartCandle) (period : ℕ) : List LineData :=
  if data.length < period + 1 then []
  else
    let changes := (data.zip data.tail).map (fun p => p.2.close - p.1.close)
    let gains := changes.map (fun ch => if ch > 0 then ch else 0)
    let losses := changes.map (fun ch => if ch < 0 then -ch else 0)
    let avgGain := (gains.take period).sum / (period : ℚ)
    let avgLoss := (losses.take period).sum / (period : ℚ)
    let firstPoint : LineData :=
      { time := ((data.drop period).headD ⟨0, 0, 0, 0, 0, 0⟩).time
        value := rsiValue avgGain avgLoss }
    let rest := (gains.drop period).zip
      ((losses.drop period).zip ((data.drop (period + 1)).map ChartCandle.time))
    firstPoint :: rsiLoop period avgGain avgLoss rest

/-- Concrete `calculate_timestamp` instance for witnesses. -/
def demoTs : ℕ → ℚ := fun s => (s : ℚ)

/-- Concrete initial feature state for witnesses: last observed close 399,
`ATR_14` of 2, and five lagged closes/volumes. -/
def demoInit : Features :=
  { fOpen := 398
    fHigh := 400
    fLow := 397
    fClose := 399
    fVolume := 1000
    atr14 := 2
    closeLags := [398, 397, 396, 395, 394]
    volumeLags := [1000, 1000, 1000, 1000, 1000] }

/-- The trivial model of the spec's end-to-end scenario: always predicts
`lastClose + 1.0`. -/
def demoModel : Features → Except PredictionError ℚ := fun f => .ok (f.fClose + 1)

/-- A model that predicts exactly the previous close (no price change). -/
def demoFlatModel : Features → Except PredictionError ℚ := fun f => .ok f.fClose

/-- A model that predicts a jump of 10, far beyond half the ATR. -/
def demoJumpModel : Features → Except PredictionError ℚ := fun f => .ok (f.fClose + 10)

/-- A model that fails with `ModelInferenceFailure` once the fed-back close
reaches 401 (i.e. on the third loop iteration from `demoInit`). -/
def demoErrModel : Features → Except PredictionError ℚ := fun f =>
  if 401 ≤ f.fClose then .error .modelInferenceFailure else .ok (f.fClose + 1)

/-- The five-step forecast of the end-to-end scenario, as a concrete list
(the run of `demoModel` for 5 steps from `demoInit`; see `demoRun5_eq`). -/
def demoRun5 : List ForecastStep :=
  [⟨1, 1, 399, 401, 399, 400, 17 / 20, .up⟩,
   ⟨2, 2, 400, 402, 400, 401, 4 / 5, .up⟩,
   ⟨3, 3, 401, 403, 401, 402, 3 / 4, .up⟩,
   ⟨4, 4, 402, 404, 402, 403, 7 / 10, .up⟩,
   ⟨5, 5, 403, 405, 403, 404, 13 / 20, .up⟩]

/-- A three-step forecast used by witnesses (the run of `demoModel` for 3
steps from `demoInit`; see `demoRun3_eq`). -/
def demoRun3 : List ForecastStep :=
  [⟨1, 1, 399, 401, 399, 400, 17 / 20, .up⟩,
   ⟨2, 2, 400, 402, 400, 401, 77 / 100, .up⟩,
   ⟨3, 3, 401, 403, 401, 402, 17 / 25, .up⟩]

/-- The one-step forecast of the jump model (see `demoRunJump_eq`). -/
def demoRunJump : List ForecastStep :=
  [⟨1, 1, 399, 410, 408, 409, 17 / 20, .up⟩]

/-- A flat candle used to build concrete candle histories. -/
def demoCandle : Candle :=
  { timestamp := 0, openPrice := 100, high := 101, low := 99, close := 100, volume := 10 }

/-- A history of 51 identical candles, enough for `requiredLookback = 50`
leading candles before index 50. -/
def demoCandles : List Candle := List.replicate 51 demoCandle

/-- Four chart candles with closes `[1, 2, 1, 3]`, used to witness the RSI
bound. -/
def demoChart : List ChartCandle :=
  [⟨0, 1, 1, 1, 1, 0⟩, ⟨1, 2, 2, 2, 2, 0⟩, ⟨2, 1, 1, 1, 1, 0⟩, ⟨3, 3, 3, 3, 3, 0⟩]

lemma stateAt_zero (model : Features → Except PredictionError ℚ)
    (updF : Features → PredCandle → Features) (init : Features) :
    stateAt model updF init 0 = init := rfl

lemma stateAt_succ_right (model : Features → Except PredictionError ℚ)
    (updF : Features → PredCandle → Features) (init : Features) (k : ℕ) :
    stateAt model updF init (k + 1) =
      advanceState model updF (stateAt model updF init k) := by
  unfold stateAt
  exact Function.iterate_succ_apply' (advanceState model updF) k init

lemma stateAt_succ_of_ok (model : Features → Except PredictionError ℚ)
    (updF : Features → PredCandle → Features) (cur : Features) (c : ℚ)
    (hm : model cur = .ok c) (k : ℕ) :
    stateAt model updF cur (k + 1) =
      stateAt model updF (updF cur (predCandleOf cur c)) k := by
  unfold stateAt
  rw [Function.iterate_succ_apply]
  have : advanceState model updF cur = updF cur (predCandleOf cur c) := by
    simp [advanceState, hm]
  rw [this]

lemma roundTo2_mono {p q : ℚ} (h : p ≤ q) : roundTo2 p ≤ roundTo2 q := by
  unfold roundTo2
  have hz : round (p * 100) ≤ round (q * 100) := by
    rw [round_eq, round_eq]
    exact Int.floor_le_floor (by linarith)
  have hq : ((round (p * 100) : ℤ) : ℚ) ≤ ((round (q * 100) : ℤ) : ℚ) := by
    exact_mod_cast hz
  linarith

lemma timeDecayConfidence_anti (T : ℕ) {i j : ℕ} (h : i ≤ j) :
    timeDecayConfidence T (1 + j) ≤ timeDecayConfidence T (1 + i) := by
  unfold timeDecayConfidence
  apply max_le_max le_rfl
  have hij : (i : ℚ) ≤ (j : ℚ) := by exact_mod_cast h
  have hquarter : (0 : ℚ) ≤ (1 / 4) / (T : ℚ) := by positivity
  have hi1 : ((1 + i : ℕ) : ℚ) - 1 = (i : ℚ) := by push_cast; ring
  have hj1 : ((1 + j : ℕ) : ℚ) - 1 = (j : ℚ) := by push_cast; ring
  rw [hi1, hj1, mul_div_assoc, mul_div_assoc]
  have := mul_le_mul_of_nonneg_right hij hquarter
  linarith

/-- Characterisation of a successful run of the step loop: the result has
one forecast step per remaining iteration, and the `i`-th produced step is
exactly the record built by the loop body from the `i`-th feature state and
the model's (successful) prediction at that state. -/
lemma predictLoop_ok_spec (model : Features → Except PredictionError ℚ)
    (updF : Features → PredCandle → Features) (ct : ℕ → ℚ) (T : ℕ) :
    ∀ (r step : ℕ) (cur : Features) (l : List ForecastStep),
      predictLoop model updF ct T r step cur = .ok l →
      l.length = r ∧
      ∀ i (hi : i < l.length),
        model (stateAt model updF cur i) = .ok ((l.get ⟨i, hi⟩).closePrice) ∧
        l.get ⟨i, hi⟩ =
          stepOf ct T (step + i) (stateAt model updF cur i)
            ((l.get ⟨i, hi⟩).closePrice) := by
  intro r
  induction r with
  | zero =>
    intro step cur l h
    simp only [predictLoop, Except.ok.injEq] at h
    subst h
    exact ⟨rfl, fun i hi => absurd hi (by simp)⟩
  | succ r ih =>
    intro step cur l h
    cases hm : model cur with
    | error e =>
      simp only [predictLoop, hm] at h
      exact Except.noConfusion h
    | ok c =>
      simp only [predictLoop, hm] at h
      cases hr : predictLoop model updF ct T r (step + 1)
          (updF cur (predCandleOf cur c)) with
      | error e =>
        rw [hr] at h
        exact Except.noConfusion h
      | ok rest =>
        rw [hr] at h
        injection h with h2
        subst h2
        obtain ⟨hlen, hget⟩ := ih (step + 1) (updF cur (predCandleOf cur c)) rest hr
        refine ⟨by simp [hlen], ?_⟩
        intro i hi
        match i with
        | 0 =>
          refine ⟨?_, ?_⟩
          · simpa [stateAt, stepOf] using hm
          · simp [stateAt, stepOf]
        | Nat.succ i =>
          have hi' : i < rest.length := by
            have := hi
            simp only [List.length_cons] at this
            omega
          obtain ⟨h1, h2⟩ := hget i hi'
          have hshift := stateAt_succ_of_ok model updF cur c hm i
          constructor
          · rw [hshift]
            simpa using h1
          · have harith : step + (i + 1) = (step + 1) + i := by omega
            simp only [List.get_cons_succ]
            rw [hshift, harith]
            exact h2

/-- If the model succeeds on the first `k` feature states of the loop and
errors on the `k`-th one, the whole loop run evaluates to that error. -/
lemma predictLoop_error_of_state_error (model : Features → Except PredictionError ℚ)
    (updF : Features → PredCandle → Features) (ct : ℕ → ℚ) (T : ℕ) :
    ∀ (k r step : ℕ) (cur : Features) (e : PredictionError),
      k < r →
      (∀ j, j < k → ∃ c, model (stateAt model updF cur j) = .ok c) →
      model (stateAt model updF cur k) = .error e →
      predictLoop model updF ct T r step cur = .error e := by
  intro k
  induction k with
  | zero =>
    intro r step cur e hkr hpre herr
    obtain ⟨r2, rfl⟩ : ∃ r2, r = r2 + 1 := ⟨r - 1, by omega⟩
    have hm : model cur = .error e := by simpa [stateAt] using herr
    simp [predictLoop, hm]
  | succ k ih =>
    intro r step cur e hkr hpre herr
    obtain ⟨r2, rfl⟩ : ∃ r2, r = r2 + 1 := ⟨r - 1, by omega⟩
    obtain ⟨c, hc⟩ := hpre 0 (by omega)
    have hm : model cur = .ok c := by simpa [stateAt] using hc
    have hrec : predictLoop model updF ct T r2 (step + 1)
        (updF cur (predCandleOf cur c)) = .error e := by
      apply ih r2 (step + 1) (updF cur (predCandleOf cur c)) e (by omega)
      · intro j hj
        have := hpre (j + 1) (by omega)
        rwa [stateAt_succ_of_ok model updF cur c hm j] at this
      · rwa [stateAt_succ_of_ok model updF cur c hm k] at herr
    simp [predictLoop, hm, hrec]

lemma rsiValue_bounds {avgGain avgLoss : ℚ} (hg : 0 ≤ avgGain) (hl : 0 ≤ avgLoss) :
    0 ≤ rsiValue avgGain avgLoss ∧ rsiValue avgGain avgLoss ≤ 100 := by
  unfold rsiValue
  set rs := if avgLoss = 0 then (100 : ℚ) else avgGain / avgLoss with hrs
  have hrs0 : 0 ≤ rs := by
    rw [hrs]
    split
    · norm_num
    · exact div_nonneg hg hl
  have h1 : (0 : ℚ) ≤ 100 / (1 + rs) := by positivity
  have h2 : 100 / (1 + rs) ≤ 100 := div_le_self (by norm_num) (by linarith)
  constructor <;> simp only [] <;> linarith

lemma rsiLoop_bounds (period : ℕ) (hp : 1 ≤ period) :
    ∀ (triples : List (ℚ × ℚ × ℚ)) (avgGain avgLoss : ℚ),
      0 ≤ avgGain → 0 ≤ avgLoss →
      (∀ x ∈ triples, 0 ≤ x.1 ∧ 0 ≤ x.2.1) →
      ∀ p ∈ rsiLoop period avgGain avgLoss triples, 0 ≤ p.value ∧ p.value ≤ 100 := by
  intro triples
  induction triples with
  | nil =>
    intro avgGain avgLoss _ _ _ p hp2
    simp [rsiLoop] at hp2
  | cons x rest ih =>
    intro avgGain avgLoss hg hl hmem p hp2
    obtain ⟨g, lo, t⟩ := x
    have hper : (1 : ℚ) ≤ (period : ℚ) := by exact_mod_cast hp
    have hx := hmem (g, lo, t) (List.mem_cons_self _ _)
    have hg2 : 0 ≤ (avgGain * ((period : ℚ) - 1) + g) / (period : ℚ) := by
      apply div_nonneg _ (by linarith)
      have : 0 ≤ avgGain * ((period : ℚ) - 1) := mul_nonneg hg (by linarith)
      have := hx.1
      simp only [] at this
      linarith
    have hl2 : 0 ≤ (avgLoss * ((period : ℚ) - 1) + lo) / (period : ℚ) := by
      apply div_nonneg _ (by linarith)
      have : 0 ≤ avgLoss * ((period : ℚ) - 1) := mul_nonneg hl (by linarith)
      have := hx.2
      simp only [] at this
      linarith
    simp only [rsiLoop, List.mem_cons] at hp2
    rcases hp2 with hp2 | hp2
    · subst hp2
      exact rsiValue_bounds hg2 hl2
    · exact ih _ _ hg2 hl2 (fun y hy => hmem y (List.mem_cons_of_mem _ hy)) p hp2

lemma demoRun5_eq :
    generateForecast demoModel update_features demoTs 5 demoInit = .ok demoRun5 := by
  with_unfolding_all rfl

lemma demoRun3_eq :
    generateForecast demoModel update_features demoTs 3 demoInit = .ok demoRun3 := by
  with_unfolding_all rfl

lemma demoRunJump_eq :
    generateForecast demoJumpModel update_features demoTs 1 demoInit = .ok demoRunJump := by
  with_unfolding_all rfl

lemma demoRSI_eq : calculateRSI demoChart 2 = [⟨2, 50⟩, ⟨3, 250 / 3⟩] := by
  with_unfolding_all rfl

/-- Claim C1, counterexample: the 5-step forecast of the end-to-end
scenario model (`lastClose + 1`) has per-step confidences
`[0.85, 0.80, 0.75, 0.70, 0.65]`; at step 5 the stored confidence `0.65`
differs from the claimed
`max(0.60, 0.85 - (stepNumber - 1) * 0.25 / (totalSteps - 1)) = 0.60`. -/
theorem confidence_divisor_counterexample :
    generateForecast demoModel update_features demoTs 5 demoInit = .ok demoRun5 ∧
    demoRun5.map ForecastStep.confidence = [17 / 20, 4 / 5, 3 / 4, 7 / 10, 13 / 20] ∧
    ¬ ((13 : ℚ) / 20 =
        max (3 / 5) (17 / 20 - ((5 : ℚ) - 1) * (1 / 4) / ((5 : ℚ) - 1))) :=
  ⟨demoRun5_eq, rfl, by norm_num⟩

/-- Claim C1 (amended): in time-decay mode with high 0.85 and low 0.60, the
per-step confidence stored by the forecast loop equals
`round₂(max(0.60, 0.85 - (stepNumber - 1) * 0.25 / totalSteps))`: the decay
divisor is `totalSteps` (the literal `30` of `predict_30_steps`), not
`totalSteps - 1`, and the value is rounded to two decimals; hence a 5-step
forecast has confidences `[0.85, 0.80, 0.75, 0.70, 0.65]`. -/
theorem generateForecast_confidence_closed_form
    (model : Features → Except PredictionError ℚ)
    (updF : Features → PredCandle → Features) (ct : ℕ → ℚ) (N : ℕ)
    (init : Features) (l : List ForecastStep)
    (h : generateForecast model updF ct N init = .ok l)
    (i : ℕ) (hi : i < l.length) :
    (l.get ⟨i, hi⟩).confidence =
      roundTo2 (max (3 / 5) (17 / 20 - (i : ℚ) * (1 / 4) / (N : ℚ))) := by
  obtain ⟨-, hget⟩ := predictLoop_ok_spec model updF ct N N 1 init l h
  obtain ⟨-, h2⟩ := hget i hi
  have hcast : ((1 + i : ℕ) : ℚ) - 1 = (i : ℚ) := by push_cast; ring
  rw [h2]
  simp only [stepOf]
  unfold timeDecayConfidence
  rw [hcast]

/-- Claim C1 witness: the amended closed form evaluated at step 5 of the
concrete 5-step run. -/
theorem generateForecast_confidence_closed_form_witness :
    (demoRun5.get ⟨4, by decide⟩).confidence =
      roundTo2 (max (3 / 5) (17 / 20 - ((4 : ℕ) : ℚ) * (1 / 4) / ((5 : ℕ) : ℚ))) :=
  generateForecast_confidence_closed_form demoModel update_features demoTs 5 demoInit
    demoRun5 demoRun5_eq 4 (by decide)

/-- Claim C2: a successful forecast of `totalSteps = N` contains exactly `N`
steps, whose `step` fields are `1..N` in increasing order. -/
theorem generateForecast_length_and_step_numbers
    (model : Features → Except PredictionError ℚ)
    (updF : Features → PredCandle → Features) (ct : ℕ → ℚ) (N : ℕ)
    (init : Features) (l : List ForecastStep)
    (h : generateForecast model updF ct N init = .ok l) :
    l.length = N ∧ ∀ i (hi : i < l.length), (l.get ⟨i, hi⟩).step = i + 1 := by
  obtain ⟨hlen, hget⟩ := predictLoop_ok_spec model updF ct N N 1 init l h
  refine ⟨hlen, ?_⟩
  intro i hi
  obtain ⟨-, h2⟩ := hget i hi
  rw [h2]
  simp only [stepOf]
  omega

/-- Claim C2 witness: the concrete 3-step run has three steps numbered 1 and
3 at indices 0 and 2. -/
theorem generateForecast_length_and_step_numbers_witness :
    demoRun3.length = 3 ∧ (demoRun3.get ⟨0, by decide⟩).step = 1 ∧
      (demoRun3.get ⟨2, by decide⟩).step = 3 := by
  obtain ⟨h1, h2⟩ := generateForecast_length_and_step_numbers demoModel update_features
    demoTs 3 demoInit demoRun3 demoRun3_eq
  exact ⟨h1, h2 0 (by decide), h2 2 (by decide)⟩

/-- Claim C3, counterexample: a model that predicts exactly the previous
close yields direction `down`, not `flat` — the loop has no equality (or
epsilon) case at all. -/
theorem direction_flat_counterexample :
    generateForecast demoFlatModel update_features demoTs 1 demoInit =
      .ok [{ step := 1, timestamp := 1, openPrice := 399, highPrice := 400,
             lowPrice := 398, closePrice := 399, confidence := 17 / 20,
             direction := Direction.down }] ∧
    demoInit.fClose = 399 ∧ Direction.down ≠ Direction.flat :=
  ⟨by with_unfolding_all rfl, rfl, by decide⟩

/-- Claim C3 (amended): a forecast step's direction is `up` iff its close
strictly exceeds the previous step's close (the last observed close for
step 1) and `down` otherwise; equal closes yield `down` and `flat` is never
produced. -/
theorem generateForecast_direction_rule
    (model : Features → Except PredictionError ℚ) (ct : ℕ → ℚ) (N : ℕ)
    (init : Features) (l : List ForecastStep)
    (h : generateForecast model update_features ct N init = .ok l) :
    (∀ i (hi : i < l.length), (l.get ⟨i, hi⟩).direction ≠ .flat) ∧
    (∀ h0 : 0 < l.length,
      (l.get ⟨0, h0⟩).direction =
        if (l.get ⟨0, h0⟩).closePrice > init.fClose then .up else .down) ∧
    (∀ j (hj : j + 1 < l.length),
      (l.get ⟨j + 1, hj⟩).direction =
        if (l.get ⟨j + 1, hj⟩).closePrice > (l.get ⟨j, Nat.lt_of_succ_lt hj⟩).closePrice
          then .up else .down) := by
  obtain ⟨hlen, hget⟩ := predictLoop_ok_spec model update_features ct N N 1 init l h
  refine ⟨?_, ?_, ?_⟩
  · intro i hi
    obtain ⟨-, h2⟩ := hget i hi
    rw [h2]
    simp only [stepOf, stepDirection]
    split <;> simp
  · intro h0
    obtain ⟨-, h2⟩ := hget 0 h0
    conv_lhs => rw [h2]
    rfl
  · intro j hj
    have hjlt := Nat.lt_of_succ_lt hj
    obtain ⟨h1j, -⟩ := hget j hjlt
    obtain ⟨-, h2j1⟩ := hget (j + 1) hj
    have hstate : stateAt model update_features init (j + 1) =
        update_features (stateAt model update_features init j)
          (predCandleOf (stateAt model update_features init j)
            ((l.get ⟨j, hjlt⟩).closePrice)) := by
      rw [stateAt_succ_right]
      simp [advanceState, h1j]
    have hfc : (stateAt model update_features init (j + 1)).fClose =
        (l.get ⟨j, hjlt⟩).closePrice := by
      rw [hstate]; rfl
    have e1 : (l.get ⟨j + 1, hj⟩).direction =
        stepDirection ((l.get ⟨j + 1, hj⟩).closePrice)
          ((stateAt model update_features init (j + 1)).fClose) := by
      conv_lhs => rw [h2j1]
      rfl
    rw [e1, hfc]
    rfl

/-- Claim C3 witness: the amended direction rule evaluated on the concrete
5-step run. -/
theorem generateForecast_direction_rule_witness :
    (demoRun5.get ⟨0, by decide⟩).direction ≠ Direction.flat ∧
    (demoRun5.get ⟨1, by decide⟩).direction =
      (if (demoRun5.get ⟨1, by decide⟩).closePrice >
          (demoRun5.get ⟨0, by decide⟩).closePrice then Direction.up
        else Direction.down) := by
  obtain ⟨hnf, h0, hsucc⟩ := generateForecast_direction_rule demoModel demoTs 5 demoInit
    demoRun5 demoRun5_eq
  exact ⟨hnf 0 (by decide), hsucc 0 (by decide)⟩

/-- Claim C8: in time-decay mode the stored confidence is monotonically
non-increasing in the step index within one forecast. -/
theorem generateForecast_confidence_monotone
    (model : Features → Except PredictionError ℚ)
    (updF : Features → PredCandle → Features) (ct : ℕ → ℚ) (N : ℕ)
    (init : Features) (l : List ForecastStep)
    (h : generateForecast model updF ct N init = .ok l) (i j : ℕ)
    (hi : i < l.length) (hj : j < l.length) (hij : i ≤ j) :
    (l.get ⟨j, hj⟩).confidence ≤ (l.get ⟨i, hi⟩).confidence := by
  obtain ⟨-, hget⟩ := predictLoop_ok_spec model updF ct N N 1 init l h
  obtain ⟨-, h2i⟩ := hget i hi
  obtain ⟨-, h2j⟩ := hget j hj
  rw [h2i, h2j]
  exact roundTo2_mono (timeDecayConfidence_anti N hij)

/-- Claim C8 witness: in the concrete 5-step run, the confidence at step 5
is at most the confidence at step 2. -/
theorem generateForecast_confidence_monotone_witness :
    (demoRun5.get ⟨4, by decide⟩).confidence ≤ (demoRun5.get ⟨1, by decide⟩).confidence :=
  generateForecast_confidence_monotone demoModel update_features demoTs 5 demoInit
    demoRun5 demoRun5_eq 1 4 (by decide) (by decide) (by decide)

/-- Claim C4: `buildFeatures` fails with `InsufficientHistory` exactly when
fewer than `W = requiredLookback` candles precede the as-of index, and on
such a failure the candle-level orchestrator returns the error and zero
forecast steps. -/
theorem buildFeatures_insufficient_history (candles : List Candle) (asOfIndex : ℕ)
    (h : asOfIndex < candles.length) :
    (buildFeatures candles asOfIndex = .error .insufficientHistory ↔
      asOfIndex < requiredLookback) ∧
    (∀ (model : Features → Except PredictionError ℚ)
       (updF : Features → PredCandle → Features) (ct : ℕ → ℚ) (N : ℕ),
      asOfIndex < requiredLookback →
      generateForecastFromCandles model updF ct candles asOfIndex N =
        .error .insufficientHistory) := by
  have herrcase : asOfIndex < requiredLookback →
      buildFeatures candles asOfIndex = .error .insufficientHistory := by
    intro hlt
    unfold buildFeatures
    rw [if_pos hlt]
  constructor
  · constructor
    · intro herr
      by_contra hlt
      unfold buildFeatures at herr
      rw [if_neg hlt, List.getElem?_eq_getElem h] at herr
      exact Except.noConfusion herr
    · exact herrcase
  · intro model updF ct N hlt
    unfold generateForecastFromCandles
    rw [herrcase hlt]

/-- Claim C4 witness: with exactly `W - 1 = 49` leading candles the builder
fails with `InsufficientHistory`; with exactly `W = 50` it does not. -/
theorem buildFeatures_insufficient_history_witness :
    (49 : ℕ) < demoCandles.length ∧ (50 : ℕ) < demoCandles.length ∧
    buildFeatures demoCandles 49 = .error .insufficientHistory ∧
    ¬ (buildFeatures demoCandles 50 = .error .insufficientHistory) := by
  refine ⟨by decide, by decide, ?_, ?_⟩
  · exact (buildFeatures_insufficient_history demoCandles 49 (by decide)).1.mpr (by decide)
  · intro hc
    have h50 := (buildFeatures_insufficient_history demoCandles 50 (by decide)).1.mp hc
    exact absurd h50 (by decide)

/-- Claim C5: after each successful step the predicted candle is fed back
into the feature state: the state entering the next iteration is
`update_features` of the current state with the predicted candle — its
close becomes the predicted close, the close/volume lags shift, the ATR is
re-smoothed with the predicted bar's true range — and the next step's
prediction is the model evaluated at this updated state. -/
theorem iterative_feedback_conditions_next_step
    (model : Features → Except PredictionError ℚ) (ct : ℕ → ℚ) (N : ℕ)
    (init : Features) (l : List ForecastStep)
    (h : generateForecast model update_features ct N init = .ok l)
    (j : ℕ) (hj : j + 1 < l.length) :
    stateAt model update_features init (j + 1) =
      update_features (stateAt model update_features init j)
        (predCandleOf (stateAt model update_features init j)
          ((l.get ⟨j, Nat.lt_of_succ_lt hj⟩).closePrice)) ∧
    (stateAt model update_features init (j + 1)).fClose =
      (l.get ⟨j, Nat.lt_of_succ_lt hj⟩).closePrice ∧
    (stateAt model update_features init (j + 1)).closeLags =
      (stateAt model update_features init j).fClose ::
        (stateAt model update_features init j).closeLags.dropLast ∧
    (stateAt model update_features init (j + 1)).volumeLags =
      (stateAt model update_features init j).fVolume ::
        (stateAt model update_features init j).volumeLags.dropLast ∧
    (stateAt model update_features init (j + 1)).atr14 =
      wilderNextATR (stateAt model update_features init j).atr14
        (trueRangeOf
          ((l.get ⟨j, Nat.lt_of_succ_lt hj⟩).closePrice +
            (stateAt model update_features init j).atr14 * (1 / 2))
          ((l.get ⟨j, Nat.lt_of_succ_lt hj⟩).closePrice -
            (stateAt model update_features init j).atr14 * (1 / 2))
          (stateAt model update_features init j).fClose) ∧
    model (stateAt model update_features init (j + 1)) =
      .ok ((l.get ⟨j + 1, hj⟩).closePrice) := by
  have hjlt := Nat.lt_of_succ_lt hj
  obtain ⟨hlen, hget⟩ := predictLoop_ok_spec model update_features ct N N 1 init l h
  obtain ⟨h1j, -⟩ := hget j hjlt
  obtain ⟨h1j1, -⟩ := hget (j + 1) hj
  have hstate : stateAt model update_features init (j + 1) =
      update_features (stateAt model update_features init j)
        (predCandleOf (stateAt model update_features init j)
          ((l.get ⟨j, hjlt⟩).closePrice)) := by
    rw [stateAt_succ_right]
    simp [advanceState, h1j]
  refine ⟨hstate, ?_, ?_, ?_, ?_, h1j1⟩
  · rw [hstate]; rfl
  · rw [hstate]; rfl
  · rw [hstate]; rfl
  · rw [hstate]; rfl

/-- Claim C5 witness: in the concrete 5-step run, the state after step 1 has
the predicted close 400 installed, and step 2's prediction is conditioned on
it. -/
theorem iterative_feedback_witness :
    (stateAt demoModel update_features demoInit 1).fClose =
      (demoRun5.get ⟨0, by decide⟩).closePrice ∧
    demoModel (stateAt demoModel update_features demoInit 1) =
      .ok ((demoRun5.get ⟨1, by decide⟩).closePrice) := by
  obtain ⟨-, h2, -, -, -, h6⟩ := iterative_feedback_conditions_next_step demoModel demoTs 5
    demoInit demoRun5 demoRun5_eq 0 (by decide)
  exact ⟨h2, h6⟩

/-- Claim C6: each step's open equals the previous step's close (the last
observed close for step 1), and its high/low are the predicted close plus
and minus half the `ATR_14` of the feature state current at that step. -/
theorem generateForecast_ohlc_derivation
    (model : Features → Except PredictionError ℚ) (ct : ℕ → ℚ) (N : ℕ)
    (init : Features) (l : List ForecastStep)
    (h : generateForecast model update_features ct N init = .ok l) :
    (∀ i (hi : i < l.length),
      (l.get ⟨i, hi⟩).highPrice =
        (l.get ⟨i, hi⟩).closePrice +
          (stateAt model update_features init i).atr14 * (1 / 2) ∧
      (l.get ⟨i, hi⟩).lowPrice =
        (l.get ⟨i, hi⟩).closePrice -
          (stateAt model update_features init i).atr14 * (1 / 2)) ∧
    (∀ h0 : 0 < l.length, (l.get ⟨0, h0⟩).openPrice = init.fClose) ∧
    (∀ j (hj : j + 1 < l.length),
      (l.get ⟨j + 1, hj⟩).openPrice = (l.get ⟨j, Nat.lt_of_succ_lt hj⟩).closePrice) := by
  obtain ⟨hlen, hget⟩ := predictLoop_ok_spec model update_features ct N N 1 init l h
  refine ⟨?_, ?_, ?_⟩
  · intro i hi
    obtain ⟨-, h2⟩ := hget i hi
    constructor
    · conv_lhs => rw [h2]
      rfl
    · conv_lhs => rw [h2]
      rfl
  · intro h0
    obtain ⟨-, h2⟩ := hget 0 h0
    conv_lhs => rw [h2]
    rfl
  · intro j hj
    have hjlt := Nat.lt_of_succ_lt hj
    obtain ⟨h1j, -⟩ := hget j hjlt
    obtain ⟨-, h2j1⟩ := hget (j + 1) hj
    have hstate : stateAt model update_features init (j + 1) =
        update_features (stateAt model update_features init j)
          (predCandleOf (stateAt model update_features init j)
            ((l.get ⟨j, hjlt⟩).closePrice)) := by
      rw [stateAt_succ_right]
      simp [advanceState, h1j]
    have hfc : (stateAt model update_features init (j + 1)).fClose =
        (l.get ⟨j, hjlt⟩).closePrice := by
      rw [hstate]; rfl
    conv_lhs => rw [h2j1]
    exact hfc

/-- Claim C6 witness: step 2 of the concrete 5-step run opens at step 1's
close, and its high is its close plus half the current ATR. -/
theorem generateForecast_ohlc_derivation_witness :
    (demoRun5.get ⟨1, by decide⟩).openPrice = (demoRun5.get ⟨0, by decide⟩).closePrice ∧
    (demoRun5.get ⟨0, by decide⟩).highPrice =
      (demoRun5.get ⟨0, by decide⟩).closePrice +
        (stateAt demoModel update_features demoInit 0).atr14 * (1 / 2) := by
  obtain ⟨hhl, h0, hsucc⟩ := generateForecast_ohlc_derivation demoModel demoTs 5 demoInit
    demoRun5 demoRun5_eq
  exact ⟨hsucc 0 (by decide), (hhl 0 (by decide)).1⟩

/-- Claim C7: if the model's predict call errors at a step within the loop
(succeeding at every earlier step), the whole forecast evaluates to that
error — the error propagates unchanged and no partial list of steps is
returned. -/
theorem model_error_aborts_forecast
    (model : Features → Except PredictionError ℚ)
    (updF : Features → PredCandle → Features) (ct : ℕ → ℚ) (N k : ℕ)
    (init : Features) (e : PredictionError) (hk : k < N)
    (hpre : ∀ j, j < k → ∃ c, model (stateAt model updF init j) = .ok c)
    (herr : model (stateAt model updF init k) = .error e) :
    generateForecast model updF ct N init = .error e :=
  predictLoop_error_of_state_error model updF ct N k N 1 init e hk hpre herr

/-- Claim C7 witness: a model that succeeds twice and then raises
`ModelInferenceFailure` aborts the whole 5-step forecast with that error. -/
theorem model_error_aborts_forecast_witness :
    generateForecast demoErrModel update_features demoTs 5 demoInit =
      .error .modelInferenceFailure := by
  apply model_error_aborts_forecast demoErrModel update_features demoTs 5 2 demoInit
    .modelInferenceFailure (by decide)
  · intro j hj
    interval_cases j
    · exact ⟨400, by with_unfolding_all rfl⟩
    · exact ⟨401, by with_unfolding_all rfl⟩
  · with_unfolding_all rfl

lemma gains_nonneg (data : List ChartCandle) :
    ∀ x ∈ ((data.zip data.tail).map (fun q => q.2.close - q.1.close)).map
        (fun ch => if ch > 0 then ch else 0), 0 ≤ x := by
  intro x hx
  simp only [List.mem_map] at hx
  obtain ⟨ch, -, rfl⟩ := hx
  split
  · linarith
  · exact le_refl 0

lemma losses_nonneg (data : List ChartCandle) :
    ∀ x ∈ ((data.zip data.tail).map (fun q => q.2.close - q.1.close)).map
        (fun ch => if ch < 0 then -ch else 0), 0 ≤ x := by
  intro x hx
  simp only [List.mem_map] at hx
  obtain ⟨ch, -, rfl⟩ := hx
  split
  · linarith
  · exact le_refl 0

/-- Claim C9: for any candle series and any period at least 1, every value
produced by `calculateRSI` lies in the oscillator's range `[0, 100]`. -/
theorem calculateRSI_bounded (data : List ChartCandle) (period : ℕ)
    (hp : 1 ≤ period) :
    ∀ p ∈ calculateRSI data period, 0 ≤ p.value ∧ p.value ≤ 100 := by
  intro p hmem
  unfold calculateRSI at hmem
  by_cases hlen : data.length < period + 1
  · rw [if_pos hlen] at hmem
    simp at hmem
  · rw [if_neg hlen] at hmem
    simp only [List.mem_cons] at hmem
    have hg0 : 0 ≤ ((((data.zip data.tail).map (fun q => q.2.close - q.1.close)).map
        (fun ch => if ch > 0 then ch else 0)).take period).sum / (period : ℚ) := by
      apply div_nonneg _ (by positivity)
      exact List.sum_nonneg fun x hx => gains_nonneg data x (List.mem_of_mem_take hx)
    have hl0 : 0 ≤ ((((data.zip data.tail).map (fun q => q.2.close - q.1.close)).map
        (fun ch => if ch < 0 then -ch else 0)).take period).sum / (period : ℚ) := by
      apply div_nonneg _ (by positivity)
      exact List.sum_nonneg fun x hx => losses_nonneg data x (List.mem_of_mem_take hx)
    rcases hmem with rfl | hmem
    · exact rsiValue_bounds hg0 hl0
    · refine rsiLoop_bounds period hp _ _ _ hg0 hl0 ?_ p hmem
      intro x hx
      obtain ⟨g, lo, t⟩ := x
      have h1 := List.of_mem_zip hx
      have h2 := List.of_mem_zip h1.2
      exact ⟨gains_nonneg data g (List.mem_of_mem_drop h1.1),
        losses_nonneg data lo (List.mem_of_mem_drop h2.1)⟩

/-- Claim C9 witness: the RSI bound evaluated at the first point of the
concrete four-candle series with period 2. -/
theorem calculateRSI_bounded_witness :
    0 ≤ (LineData.mk 2 50).value ∧ (LineData.mk 2 50).value ≤ 100 :=
  calculateRSI_bounded demoChart 2 (by decide) ⟨2, 50⟩
    (by rw [demoRSI_eq]; exact List.mem_cons_self _ _)

/-- Claim C10: with a non-negative ATR feature, every forecast step
satisfies `low ≤ close ≤ high`; the open — the previous close — is not so
constrained and lies strictly outside `[low, high]` in the concrete
jump-model run, where the predicted close moves by more than half the ATR. -/
theorem step_bounds_and_open_outside :
    (∀ (model : Features → Except PredictionError ℚ)
       (updF : Features → PredCandle → Features) (ct : ℕ → ℚ) (N : ℕ)
       (init : Features) (l : List ForecastStep) (i : ℕ) (hi : i < l.length),
      generateForecast model updF ct N init = .ok l →
      0 ≤ (stateAt model updF init i).atr14 →
      (l.get ⟨i, hi⟩).lowPrice ≤ (l.get ⟨i, hi⟩).closePrice ∧
        (l.get ⟨i, hi⟩).closePrice ≤ (l.get ⟨i, hi⟩).highPrice) ∧
    (generateForecast demoJumpModel update_features demoTs 1 demoInit = .ok demoRunJump ∧
      (demoRunJump.get ⟨0, by decide⟩).openPrice <
        (demoRunJump.get ⟨0, by decide⟩).lowPrice) := by
  constructor
  · intro model updF ct N init l i hi h hatr
    obtain ⟨-, hget⟩ := predictLoop_ok_spec model updF ct N N 1 init l h
    obtain ⟨-, h2⟩ := hget i hi
    constructor
    · conv_lhs => rw [h2]
      show (l.get ⟨i, hi⟩).closePrice -
          (stateAt model updF init i).atr14 * (1 / 2) ≤ _
      linarith
    · conv_rhs => rw [h2]
      show _ ≤ (l.get ⟨i, hi⟩).closePrice +
          (stateAt model updF init i).atr14 * (1 / 2)
      linarith
  · exact ⟨demoRunJump_eq, by norm_num [demoRunJump]⟩

/-- Claim C10 witness: the bound `low ≤ close ≤ high` evaluated on the
concrete jump-model step. -/
theorem step_bounds_and_open_outside_witness :
    (demoRunJump.get ⟨0, by decide⟩).lowPrice ≤
        (demoRunJump.get ⟨0, by decide⟩).closePrice ∧
      (demoRunJump.get ⟨0, by decide⟩).closePrice ≤
        (demoRunJump.get ⟨0, by decide⟩).highPrice :=
  step_bounds_and_open_outside.1 demoJumpModel update_features demoTs 1 demoInit
    demoRunJump 0 (by decide) demoRunJump_eq (by norm_num [stateAt, demoInit])
